import Mathlib

/-!
Shallow embedding of the token-handling core of the HW14_2 contact-management
service: `src/tokens_access.py` (python-jose based access/refresh token
management) and `utils/token.py` (PyJWT based e-mail verification tokens).

Time is modelled as `Int` epoch seconds.  A JWT is modelled structurally as
the claims payload it carries together with the key it was signed with;
signature verification succeeds exactly when the verifying secret equals the
signing secret (an ideal MAC — no claim below concerns forgeability).  A JSON
payload field that may be absent or null is `Option (Option _)`:
`none` = key absent, `some none` = JSON null, `some (some v)` = value `v`.
-/

/-- The JWT claims payload as the Python code shapes it: an optional `sub`
field (absent, null, or a string) and an optional integer `exp` field
(epoch seconds). -/
structure Payload where
  sub : Option (Option String)
  exp : Option Int
  deriving DecidableEq

/-- A signed wire token: the payload plus the secret it was signed with. -/
structure Token where
  payload : Payload
  key : String
  deriving DecidableEq

/-- Errors raised by python-jose `jwt.decode`.  `ExpiredSignatureError` and
`JWTClaimsError` both subclass `JWTError`, so `except JWTError` in the
callers catches all of them. -/
inductive JoseError
  | invalidSignature
  | expiredSignature
  | claimsError
  deriving DecidableEq

/-- python-jose `_validate_exp` with leeway 0: raises
`ExpiredSignatureError` when `exp < now`; skipped when `exp` is absent. -/
def jose_validate_exp (now : Int) (p : Payload) : Except JoseError Unit :=
  match p.exp with
  | some e => if e < now then .error .expiredSignature else .ok ()
  | none => .ok ()

/-- python-jose `_validate_sub`: raises
`JWTClaimsError("Subject must be a string.")` when `sub` is present but not
a string (in this model: JSON null); skipped when `sub` is absent. -/
def jose_validate_sub (p : Payload) : Except JoseError Unit :=
  match p.sub with
  | some none => .error .claimsError
  | _ => .ok ()

/-- python-jose `jwt.decode(token, secret, algorithms=[ALGORITHM])` with
default options: verifies the signature first, then `_validate_claims` runs
the claim validators in order — `verify_exp` and `verify_sub` are both on by
default, with `exp` validated before `sub` — and the first failing validator
raises. -/
def jose_decode (secret : String) (now : Int) (tok : Token) : Except JoseError Payload :=
  if tok.key = secret then
    match jose_validate_exp now tok.payload with
    | .error err => .error err
    | .ok _ =>
      match jose_validate_sub tok.payload with
      | .error err => .error err
      | .ok _ => .ok tok.payload
  else
    .error .invalidSignature

/-- Errors raised by PyJWT `jwt.decode`.  `ExpiredSignatureError` subclasses
`PyJWTError`; `utils/token.py` catches both classes. -/
inductive PyJwtError
  | invalidSignature
  | expiredSignature
  deriving DecidableEq

/-- PyJWT `jwt.decode(token, secret, algorithms=[ALGORITHM])` with default
options: verifies the signature first, then validates the claims;
`_validate_exp` raises `ExpiredSignatureError` when `exp <= now` (leeway 0)
and skips the check when `exp` is absent. -/
def pyjwt_decode (secret : String) (now : Int) (tok : Token) : Except PyJwtError Payload :=
  if tok.key = secret then
    match tok.payload.exp with
    | some e => if e ≤ now then .error .expiredSignature else .ok tok.payload
    | none => .ok tok.payload
  else
    .error .invalidSignature

/-- `utils/token.py` line 8. -/
def VERIFICATION_TOKEN_EXPIRE_MINUTES : Int := 60

/-- `utils/token.py`, `generate_verification_token(email)`: payload is
`{"sub": email, "exp": now + 60 minutes}`, encoded with `SECRET_KEY`. -/
def generate_verification_token (secret : String) (now : Int) (email : String) : Token :=
  { payload := { sub := some (some email)
                 exp := some (now + VERIFICATION_TOKEN_EXPIRE_MINUTES * 60) }
    key := secret }

/-- Outcome of a Python function declared to return `bool` that may also
escape with an uncaught `KeyError`. -/
inductive VerifyResult
  | ret (b : Bool)
  | keyError
  deriving DecidableEq

/-- `utils/token.py`, `verify_verification_token(email, token)`: decodes with
PyJWT inside `try`; `except jwt.ExpiredSignatureError` and
`except jwt.PyJWTError` both fall through to `return False`.  On a successful
decode it evaluates `payload["sub"]` — an uncaught `KeyError` when the key is
absent — and returns `True` exactly when that value equals `email`. -/
def verify_verification_token (secret : String) (now : Int) (email : String) (token : Token) :
    VerifyResult :=
  match pyjwt_decode secret now token with
  | .error _ => .ret false
  | .ok payload =>
    match payload.sub with
    | none => .keyError
    | some v => if v = some email then .ret true else .ret false

/-- `src/tokens_access.py` line 17. -/
def ACCESS_TOKEN_EXPIRE_MINUTES : Int := 30

/-- `src/tokens_access.py` line 18. -/
def REFRESH_TOKEN_EXPIRE_MINUTES : Int := 1440

/-- `src/tokens_access.py`, `create_access_token(data, expires_delta)`.
`data` is a dict whose `sub` entry is modelled by `data_sub`; `expires_delta`
is seconds.  Python truthiness: `if expires_delta:` takes the default branch
for both `None` and `0`, and the default branch is
`datetime.utcnow() + timedelta(minutes=15)`. -/
def create_access_token (secret : String) (now : Int) (data_sub : Option (Option String))
    (expires_delta : Option Int) : Token :=
  let expire : Int :=
    match expires_delta with
    | some d => if d ≠ 0 then now + d else now + 15 * 60
    | none => now + 15 * 60
  { payload := { sub := data_sub, exp := some expire }, key := secret }

/-- A row of the `users` table, restricted to the fields the token core
touches (`database/models.py`, `User`). -/
structure User where
  email : String
  refresh_token : Option Token
  deriving DecidableEq

/-- The user store: the `users` table in row order. -/
abbrev Db := List User

/-- `db.query(User).filter(User.email == email).first()`
(also `database/users.py`, `get_user_by_email`). -/
def find_by_email : Db → String → Option User
  | [], _ => none
  | u :: rest, e => if u.email = e then some u else find_by_email rest e

/-- Effect of `user.refresh_token = tok; db.commit()` on the row that
`.first()` found: the first row with the given email is updated in place. -/
def set_refresh_token : Db → String → Token → Db
  | [], _, _ => []
  | u :: rest, e, tok =>
    if u.email = e then { u with refresh_token := some tok } :: rest
    else u :: set_refresh_token rest e tok

/-- The ways the token-manager coroutines in `src/tokens_access.py` fail:
an uncaught `AttributeError` (accessing an attribute of `None`), an uncaught
`KeyError`, or a raised `fastapi.HTTPException` with a status code and
detail string. -/
inductive PyError
  | attributeError
  | keyError
  | httpException (status : Nat) (detail : String)
  deriving DecidableEq

/-- `src/tokens_access.py`, `create_refresh_token(data, db, expires_delta)`:
builds the token (default lifetime `timedelta(minutes=60*24)`), then runs
`user = db.query(User).filter(User.email == data["sub"]).first()` and
`user.refresh_token = encoded_refresh_token` with no `None` check — when no
user matches, `.first()` returns `None` and the attribute assignment raises
an uncaught `AttributeError`.  On success it returns the token and the
updated store. -/
def create_refresh_token (secret : String) (now : Int) (sub : String) (db : Db)
    (expires_delta : Option Int) : Except PyError (Token × Db) :=
  let expire : Int :=
    match expires_delta with
    | some d => if d ≠ 0 then now + d else now + 60 * 24 * 60
    | none => now + 60 * 24 * 60
  let tok : Token := { payload := { sub := some (some sub), exp := some expire }, key := secret }
  match find_by_email db sub with
  | none => .error .attributeError
  | some _ => .ok (tok, set_refresh_token db sub tok)

/-- `src/tokens_access.py`, `get_login_from_refresh_token(refresh_token)`:
jose decode inside `try`; any `JWTError` (including expiry) returns `None`;
otherwise returns `payload.get("sub")`, which is `None` when the key is
absent or its value is null. -/
def get_login_from_refresh_token (secret : String) (now : Int) (refresh_token : Token) :
    Option String :=
  match jose_decode secret now refresh_token with
  | .ok payload =>
    match payload.sub with
    | some (some s) => some s
    | _ => none
  | .error _ => none

/-- Outcome of `get_current_user`: a user, the 401 `credentials_exception`,
or an uncaught `KeyError` escaping the `try` block. -/
inductive AuthResult
  | ok (u : User)
  | unauthorized
  | keyError
  deriving DecidableEq

/-- `src/tokens_access.py`, `get_current_user(token, db)`: strips an optional
`"Bearer "` prefix (a string-level step with no structural effect here),
jose-decodes inside `try` where `except JWTError` maps every decode failure to
the 401 `credentials_exception`; then `email = payload["sub"]` — an uncaught
`KeyError` when the key is absent, since `KeyError` is not a `JWTError` —
followed by `if email is None: raise credentials_exception`; finally looks the
user up by email and raises the same 401 when absent. -/
def get_current_user (secret : String) (now : Int) (token : Token) (db : Db) : AuthResult :=
  match jose_decode secret now token with
  | .error _ => .unauthorized
  | .ok payload =>
    match payload.sub with
    | none => .keyError
    | some none => .unauthorized
    | some (some email) =>
      match find_by_email db email with
      | none => .unauthorized
      | some u => .ok u

/-- `src/tokens_access.py`, `create_access_token_from_refresh_token`:
401 "Refresh token is invalid" when the login cannot be extracted,
401 "User not found" when no user has that email, otherwise a fresh access
token with lifetime `ACCESS_TOKEN_EXPIRE_MINUTES` (passed in seconds). -/
def create_access_token_from_refresh_token (secret : String) (now : Int)
    (refresh_token : Token) (db : Db) : Except PyError Token :=
  match get_login_from_refresh_token secret now refresh_token with
  | none => .error (.httpException 401 "Refresh token is invalid")
  | some login =>
    match find_by_email db login with
    | none => .error (.httpException 401 "User not found")
    | some user =>
      .ok (create_access_token secret now (some (some user.email))
            (some (ACCESS_TOKEN_EXPIRE_MINUTES * 60)))

/-- A row returned by an email lookup carries exactly that email. -/
theorem find_by_email_eq (db : Db) (e : String) (u : User)
    (h : find_by_email db e = some u) : u.email = e := by
  induction db with
  | nil => exact absurd h (by simp [find_by_email])
  | cons v rest ih =>
    rw [find_by_email] at h
    split at h
    next heq => injection h with h2; exact h2 ▸ heq
    next => exact ih h

/-- Looking up the email whose row was just updated returns the updated row. -/
theorem find_by_email_set (db : Db) (e : String) (tok : Token) :
    find_by_email (set_refresh_token db e tok) e =
      (find_by_email db e).map (fun u => { u with refresh_token := some tok }) := by
  induction db with
  | nil => rfl
  | cons v rest ih =>
    rw [set_refresh_token]
    split
    next heq => simp [find_by_email, heq]
    next hne => simp [find_by_email, hne, ih]

/-- A successful jose decode pins the key and returns the token's own payload. -/
theorem jose_decode_ok_inv (secret : String) (now : Int) (tok : Token) (p : Payload)
    (h : jose_decode secret now tok = .ok p) : tok.key = secret ∧ p = tok.payload := by
  rw [jose_decode] at h
  split at h
  next hkey =>
    refine ⟨hkey, ?_⟩
    split at h
    next => exact absurd h (by simp)
    next =>
      split at h
      next => exact absurd h (by simp)
      next => injection h with h2; exact h2.symm
  next => exact absurd h (by simp)

/-- A successful refresh-token issuance found a user and returned the store
with that user's row updated. -/
theorem create_refresh_token_ok_inv (secret : String) (now : Int) (sub : String) (db : Db)
    (d : Option Int) (tok : Token) (db2 : Db)
    (h : create_refresh_token secret now sub db d = Except.ok (tok, db2)) :
    db2 = set_refresh_token db sub tok ∧ ∃ u, find_by_email db sub = some u := by
  cases hf : find_by_email db sub with
  | none =>
    unfold create_refresh_token at h
    rw [hf] at h
    exact absurd h (by simp)
  | some u =>
    unfold create_refresh_token at h
    rw [hf] at h
    simp only [Except.ok.injEq, Prod.mk.injEq] at h
    exact ⟨by rw [← h.1, ← h.2], u, rfl⟩

/-- Claim C1 (counterexample): a token signed with the configured secret and
whose body parses, but whose expiry is in the past, is rejected by jose
decode instead of being returned — decode does check expiry. -/
theorem C1_counterexample :
    ({ payload := { sub := some (some "a@example.com"), exp := some 0 }
       key := "k" } : Token).key = "k" ∧
    jose_decode "k" 1 { payload := { sub := some (some "a@example.com"), exp := some 0 }
                        key := "k" } = Except.error JoseError.expiredSignature :=
  ⟨rfl, rfl⟩

/-- Claim C1 (amended): for every wire token whose signature is valid under
the configured secret and whose body parses with an expiry, jose decode
returns the Claims iff the current time is at most the expiry and the `sub`
claim, when present, is a string; expired tokens and null-subject tokens are
rejected inside decode, not left to the caller. -/
theorem C1_authentic_decode_iff (secret : String) (now : Int) (tok : Token) (e : Int)
    (hkey : tok.key = secret) (hexp : tok.payload.exp = some e) :
    (jose_decode secret now tok = Except.ok tok.payload ↔
      now ≤ e ∧ tok.payload.sub ≠ some none) := by
  unfold jose_decode jose_validate_exp jose_validate_sub
  rw [if_pos hkey]
  simp only [hexp]
  by_cases hlt : e < now
  · rw [if_pos hlt]
    constructor
    · intro h
      exact absurd h (by simp)
    · rintro ⟨h1, -⟩
      exact absurd h1 (by omega)
  · rw [if_neg hlt]
    cases hs : tok.payload.sub with
    | none => simp [hs]; omega
    | some v =>
      cases v with
      | none => simp [hs]
      | some s => simp [hs]; omega

/-- Evaluation of `C1_authentic_decode_iff` at a concrete unexpired token
with a string subject. -/
theorem C1_witness :
    jose_decode "k" 0 { payload := { sub := some (some "a@example.com"), exp := some 5 }
                        key := "k" } =
      Except.ok { sub := some (some "a@example.com"), exp := some 5 } :=
  (C1_authentic_decode_iff "k" 0
    { payload := { sub := some (some "a@example.com"), exp := some 5 }, key := "k" }
    5 rfl rfl).mpr ⟨by decide, by decide⟩

/-- Claim C4 (counterexample): with no caller-supplied lifetime the issued
access token expires 900 seconds (15 minutes) after now, not 30 minutes. -/
theorem C4_counterexample :
    (create_access_token "k" 0 (some (some "a@example.com")) none).payload.exp = some 900 ∧
    some (900 : Int) ≠ some (0 + 30 * 60) :=
  ⟨rfl, by decide⟩

/-- Claim C4 (amended): when `create_access_token` is called without a
caller-supplied lifetime, the issued token's expiry is 15 minutes after the
current time — the module constant `ACCESS_TOKEN_EXPIRE_MINUTES = 30` is only
used by callers that pass a lifetime explicitly. -/
theorem C4_default_lifetime (secret : String) (now : Int) (data_sub : Option (Option String)) :
    (create_access_token secret now data_sub none).payload.exp = some (now + 15 * 60) := rfl

/-- Claim C9: `verify_verification_token` is not total as a boolean function:
a token validly signed under the configured secret and unexpired, but whose
payload lacks the `sub` field, makes it raise an uncaught `KeyError` instead
of returning `false` — only JWT errors are caught around the subject lookup. -/
theorem C9_keyerror :
    pyjwt_decode "k" 0 { payload := { sub := none, exp := some 100 }, key := "k" } =
      Except.ok { sub := none, exp := some 100 } ∧
    verify_verification_token "k" 0 "a@example.com"
      { payload := { sub := none, exp := some 100 }, key := "k" } = VerifyResult.keyError :=
  ⟨rfl, rfl⟩

/-- Claim C10 (counterexample): a negative caller-supplied lifetime is truthy
in Python, so it is not treated as unspecified: the issued access token is
already expired at issuance and jose decode rejects it immediately. -/
theorem C10_counterexample :
    (create_access_token "k" 100 (some (some "a@example.com")) (some (-10))).payload.exp =
      some 90 ∧
    jose_decode "k" 100 (create_access_token "k" 100 (some (some "a@example.com")) (some (-10))) =
      Except.error JoseError.expiredSignature :=
  ⟨rfl, rfl⟩

/-- Claim C10 (amended): a caller-supplied lifetime of 0 (Python-falsy) is
treated like an unspecified lifetime and falls back to the default expiry,
and for every nonnegative caller-supplied lifetime the issued token is not
yet expired at issuance; a negative lifetime, however, does yield a token
already expired when issued. -/
theorem C10_zero_ttl (secret : String) (now : Int) (data_sub : Option (Option String)) :
    create_access_token secret now data_sub (some 0) =
      create_access_token secret now data_sub none ∧
    (∀ d : Int, 0 ≤ d →
      ∃ e : Int, (create_access_token secret now data_sub (some d)).payload.exp = some e ∧
        now ≤ e) := by
  constructor
  · rfl
  · intro d hd
    by_cases h0 : d = 0
    · exact ⟨now + 15 * 60, by simp [create_access_token, h0], by omega⟩
    · exact ⟨now + d, by simp [create_access_token, h0], by omega⟩

/-- Evaluation of `C10_zero_ttl` at a concrete positive lifetime. -/
theorem C10_witness :
    ∃ e : Int, (create_access_token "k" 0 (some (some "a@example.com")) (some 5)).payload.exp =
      some e ∧ (0 : Int) ≤ e :=
  (C10_zero_ttl "k" 0 (some (some "a@example.com"))).2 5 (by decide)

/-- Claim C2 (counterexample): a validly-signed, unexpired token whose
payload lacks the `sub` key makes `get_current_user` escape with an uncaught
`KeyError` — a failure mode distinct from the 401 `credentials_exception`. -/
theorem C2_counterexample :
    get_current_user "k" 0 { payload := { sub := none, exp := some 100 }, key := "k" } [] =
      AuthResult.keyError ∧
    AuthResult.keyError ≠ AuthResult.unauthorized :=
  ⟨rfl, by simp⟩

/-- Claim C2 (amended): `get_current_user` crashes with an uncaught
`KeyError` exactly when the token decodes successfully but its payload lacks
the `sub` key; it returns the single 401 `Unauthorized` outcome exactly when
decoding fails, when the decoded subject is null, or when no user with the
subject email exists — three indistinguishable conditions; in every other
case it returns a user. -/
theorem C2_authenticate_outcomes (secret : String) (now : Int) (tok : Token) (db : Db) :
    (get_current_user secret now tok db = AuthResult.keyError ↔
      jose_decode secret now tok = Except.ok tok.payload ∧ tok.payload.sub = none) ∧
    (get_current_user secret now tok db = AuthResult.unauthorized ↔
      (∃ err, jose_decode secret now tok = Except.error err) ∨
      (jose_decode secret now tok = Except.ok tok.payload ∧
        (tok.payload.sub = some none ∨
          ∃ s, tok.payload.sub = some (some s) ∧ find_by_email db s = none))) := by
  cases hd : jose_decode secret now tok with
  | error err =>
    simp [get_current_user, hd]
  | ok p =>
    obtain ⟨-, hp⟩ := jose_decode_ok_inv secret now tok p hd
    subst hp
    cases hs : tok.payload.sub with
    | none => simp [get_current_user, hd, hs]
    | some v =>
      cases v with
      | none => simp [get_current_user, hd, hs]
      | some s =>
        cases hf : find_by_email db s with
        | none => simp [get_current_user, hd, hs, hf]
        | some u => simp [get_current_user, hd, hs, hf]

/-- Claim C3: whenever `get_current_user` succeeds, the returned user
record's email is exactly the subject carried inside the presented token, so
a token signed for one address can never yield another address's record. -/
theorem C3_subject_binding (secret : String) (now : Int) (tok : Token) (db : Db) (u : User)
    (h : get_current_user secret now tok db = AuthResult.ok u) :
    tok.payload.sub = some (some u.email) := by
  cases hd : jose_decode secret now tok with
  | error err => rw [get_current_user, hd] at h; exact absurd h (by simp)
  | ok p =>
    obtain ⟨-, hp⟩ := jose_decode_ok_inv secret now tok p hd
    subst hp
    cases hs : tok.payload.sub with
    | none => simp [get_current_user, hd, hs] at h
    | some v =>
      cases v with
      | none => simp [get_current_user, hd, hs] at h
      | some s =>
        cases hf : find_by_email db s with
        | none => simp [get_current_user, hd, hs, hf] at h
        | some v =>
          simp only [get_current_user, hd, hs, hf, AuthResult.ok.injEq] at h
          rw [← h, find_by_email_eq db s v hf]

/-- Evaluation of `C3_subject_binding` on a store holding the token's own
subject. -/
theorem C3_witness :
    get_current_user "k" 0
        { payload := { sub := some (some "a@example.com"), exp := some 10 }, key := "k" }
        [{ email := "a@example.com", refresh_token := none }] =
      AuthResult.ok { email := "a@example.com", refresh_token := none } ∧
    ({ payload := { sub := some (some "a@example.com"), exp := some 10 }
       key := "k" } : Token).payload.sub = some (some "a@example.com") :=
  ⟨rfl, C3_subject_binding "k" 0
    { payload := { sub := some (some "a@example.com"), exp := some 10 }, key := "k" }
    [{ email := "a@example.com", refresh_token := none }]
    { email := "a@example.com", refresh_token := none } rfl⟩

/-- Claim C5 (counterexample): with an empty user store,
`create_refresh_token` terminates in an uncaught `AttributeError` — not a
structured `UserNotFound` failure. -/
theorem C5_counterexample :
    create_refresh_token "k" 0 "a@example.com" [] none = Except.error PyError.attributeError ∧
    PyError.attributeError ≠ PyError.httpException 401 "User not found" :=
  ⟨rfl, by simp⟩

/-- Claim C5 (amended): when no user with the subject email exists,
`create_refresh_token` crashes with an uncaught `AttributeError` (attribute
assignment on `None`) rather than failing with a structured `UserNotFound`;
when the user exists, it writes the new token into that user's record and
returns the token. -/
theorem C5_refresh_issuance (secret : String) (now : Int) (sub : String) (db : Db)
    (d : Option Int) :
    (find_by_email db sub = none →
      create_refresh_token secret now sub db d = Except.error PyError.attributeError) ∧
    (∀ u, find_by_email db sub = some u →
      ∃ tok db2, create_refresh_token secret now sub db d = Except.ok (tok, db2) ∧
        ∃ u2, find_by_email db2 sub = some u2 ∧ u2.refresh_token = some tok) := by
  constructor
  · intro h
    unfold create_refresh_token
    rw [h]
  · intro u hu
    cases hres : create_refresh_token secret now sub db d with
    | error e =>
      unfold create_refresh_token at hres
      rw [hu] at hres
      exact absurd hres (by simp)
    | ok r =>
      obtain ⟨tokv, db2v⟩ := r
      obtain ⟨hdb2, -⟩ := create_refresh_token_ok_inv secret now sub db d tokv db2v hres
      refine ⟨tokv, db2v, rfl, ?_⟩
      rw [hdb2, find_by_email_set, hu]
      exact ⟨_, rfl, rfl⟩

/-- Evaluation of `C5_refresh_issuance` on a store holding the subject. -/
theorem C5_witness :
    ∃ tok db2,
      create_refresh_token "k" 0 "a@example.com"
          [{ email := "a@example.com", refresh_token := none }] none = Except.ok (tok, db2) ∧
      ∃ u2, find_by_email db2 "a@example.com" = some u2 ∧ u2.refresh_token = some tok :=
  (C5_refresh_issuance "k" 0 "a@example.com"
      [{ email := "a@example.com", refresh_token := none }] none).2
    { email := "a@example.com", refresh_token := none } rfl

/-- Claim C6: encode/decode round-trip — encoding Claims{subject, now + ttl}
with a positive ttl and decoding under the same secret at issuance time
succeeds and preserves both the subject and the expiry. -/
theorem C6_roundtrip (secret sub : String) (now ttl : Int) (h : 0 < ttl) :
    jose_decode secret now (create_access_token secret now (some (some sub)) (some ttl)) =
      Except.ok { sub := some (some sub), exp := some (now + ttl) } := by
  have hne : ttl ≠ 0 := by omega
  have hlt : ¬ (now + ttl < now) := by omega
  simp [create_access_token, jose_decode, jose_validate_exp, jose_validate_sub, hne, hlt]

/-- Evaluation of `C6_roundtrip` at a concrete subject and lifetime. -/
theorem C6_witness :
    jose_decode "k" 0 (create_access_token "k" 0 (some (some "a@example.com")) (some 60)) =
      Except.ok { sub := some (some "a@example.com"), exp := some (0 + 60) } :=
  C6_roundtrip "k" "a@example.com" 0 60 (by decide)

/-- Closed form of verifying an issuer-produced verification token: the
result is always a boolean, `true` exactly when the verifying secret matches
the signing secret, the current time is strictly before the expiry, and the
supplied email equals the token's subject. -/
theorem verify_generate (ksign kver email email2 : String) (t0 now : Int) :
    verify_verification_token kver now email2 (generate_verification_token ksign t0 email) =
      VerifyResult.ret
        (decide (ksign = kver) && decide (now < t0 + 60 * 60) && decide (email2 = email)) := by
  rcases lt_or_le now (t0 + 60 * 60) with ht | ht
  · have hexp : ¬ (t0 + 3600 ≤ now) := by omega
    have ht3 : now < t0 + 3600 := by omega
    by_cases hk : ksign = kver
    · by_cases he : email2 = email
      · simp [verify_verification_token, generate_verification_token, pyjwt_decode,
          VERIFICATION_TOKEN_EXPIRE_MINUTES, hk, hexp, he, decide_eq_true ht3]
      · simp [verify_verification_token, generate_verification_token, pyjwt_decode,
          VERIFICATION_TOKEN_EXPIRE_MINUTES, hk, hexp, Ne.symm he, decide_eq_true ht3,
          decide_eq_false he]
    · simp [verify_verification_token, generate_verification_token, pyjwt_decode,
        VERIFICATION_TOKEN_EXPIRE_MINUTES, hk, decide_eq_false hk]
  · have hexp : t0 + 3600 ≤ now := by omega
    have ht2 : ¬ (now < t0 + 3600) := by omega
    by_cases hk : ksign = kver
    · simp [verify_verification_token, generate_verification_token, pyjwt_decode,
        VERIFICATION_TOKEN_EXPIRE_MINUTES, hk, hexp, decide_eq_false ht2]
    · simp [verify_verification_token, generate_verification_token, pyjwt_decode,
        VERIFICATION_TOKEN_EXPIRE_MINUTES, hk, decide_eq_false hk]

/-- Claim C7 (counterexample): at the exact expiry instant — a time that is
not past the expiry — `verify_verification_token` already returns `false`
for the matching email: PyJWT rejects a token when `now` equals `exp`. -/
theorem C7_counterexample :
    verify_verification_token "k" 3600 "u@example.com"
        (generate_verification_token "k" 0 "u@example.com") = VerifyResult.ret false ∧
    ¬ ((3600 : Int) > 0 + VERIFICATION_TOKEN_EXPIRE_MINUTES * 60) :=
  ⟨rfl, by decide⟩

/-- Claim C7 (amended): a verification token issued at `t0` expires exactly
60 minutes later; verifying an issued token always returns a boolean (never
raises), and returns `true` exactly when the verifying secret matches the
signing secret, the supplied email equals the token's subject, and the
current time is strictly before the expiry (PyJWT rejects at `now ≥ exp`). -/
theorem C7_verification_spec (ksign kver email email2 : String) (t0 now : Int) :
    (generate_verification_token ksign t0 email).payload.exp = some (t0 + 60 * 60) ∧
    (∃ b, verify_verification_token kver now email2 (generate_verification_token ksign t0 email) =
      VerifyResult.ret b) ∧
    (verify_verification_token kver now email2 (generate_verification_token ksign t0 email) =
        VerifyResult.ret true ↔ ksign = kver ∧ email2 = email ∧ now < t0 + 60 * 60) := by
  refine ⟨rfl, ⟨_, verify_generate ksign kver email email2 t0 now⟩, ?_⟩
  rw [verify_generate]
  simp only [VerifyResult.ret.injEq, Bool.and_eq_true, decide_eq_true_eq]
  tauto

/-- Claim C8: issuing two refresh tokens in sequence for the same subject
leaves only the second token stored as current on that user's record. -/
theorem C8_overwrite (secret : String) (t1 t2 : Int) (sub : String) (db db1 db2 : Db)
    (d1 d2 : Option Int) (tok1 tok2 : Token)
    (_h1 : create_refresh_token secret t1 sub db d1 = Except.ok (tok1, db1))
    (h2 : create_refresh_token secret t2 sub db1 d2 = Except.ok (tok2, db2)) :
    ∃ u2, find_by_email db2 sub = some u2 ∧ u2.refresh_token = some tok2 := by
  obtain ⟨hdb2, u1, hu1⟩ := create_refresh_token_ok_inv secret t2 sub db1 d2 tok2 db2 h2
  subst hdb2
  rw [find_by_email_set, hu1]
  exact ⟨_, rfl, rfl⟩

/-- Evaluation of `C8_overwrite` on two concrete sequential issuances. -/
theorem C8_witness :
    ∃ u2,
      find_by_email
          [{ email := "a@example.com"
             refresh_token := some { payload := { sub := some (some "a@example.com")
                                                  exp := some 86405 }
                                     key := "k" } }] "a@example.com" = some u2 ∧
      u2.refresh_token = some { payload := { sub := some (some "a@example.com")
                                             exp := some 86405 }
                                key := "k" } :=
  C8_overwrite "k" 0 5 "a@example.com"
    [{ email := "a@example.com", refresh_token := none }]
    [{ email := "a@example.com"
       refresh_token := some { payload := { sub := some (some "a@example.com")
                                            exp := some 86400 }
                               key := "k" } }]
    [{ email := "a@example.com"
       refresh_token := some { payload := { sub := some (some "a@example.com")
                                            exp := some 86405 }
                               key := "k" } }]
    none none
    { payload := { sub := some (some "a@example.com"), exp := some 86400 }, key := "k" }
    { payload := { sub := some (some "a@example.com"), exp := some 86405 }, key := "k" }
    rfl rfl
